import Mathlib

/-!
Verification of the ingestion-and-retrieval coordination workflow of a
RAG chatbot application. The definitions below are a shallow embedding of
the Python source files (rag_app/utils/chroma_utils.py,
rag_app/utils/db_utils.py, rag_app/utils/langchain_utils.py,
rag_app/app/sidebar.py): pure data is modelled by Lean structures, the
module-level mutable state (caches, the database, the vector store, the
one-time guard) is threaded explicitly, and Python exceptions become
Except values. External collaborators (the Nomic embedding constructor,
Chroma, sqlite) are modelled by explicit environment records that say
whether each external call succeeds.
-/

set_option autoImplicit false

namespace RagApp

/-! ### Resource cache (the st.cache_resource decorator)

Streamlit caches, per argument tuple, every value RETURNED by the
decorated function, None included; only a propagated exception is left
uncached. The decorated bodies in this code base catch every exception
and return None, so from the cache the body always returns normally.
A resource instance is identified by its allocation number, which models
reference identity: each run of the underlying constructor yields a
fresh number. -/

abbrev Resource := Nat

/-- Association-list lookup used to model the argument-keyed cache. -/
def assocLookup {κ : Type} [DecidableEq κ] {β : Type} : List (κ × β) → κ → Option β
  | [], _ => none
  | p :: ps, k => if p.1 = k then some p.2 else assocLookup ps k

/-- Key of get_embedding_function: the full argument tuple
(nomic_api_key, model, dimensionality). -/
structure EmbKey where
  api_key : String
  model : String
  dimensionality : Option Nat
deriving DecidableEq

/-- External behaviour at embedding-construction time: whether the
langchain_nomic import succeeded at module load, and whether the n-th
invocation of the NomicEmbeddings constructor succeeds or throws. -/
structure EmbEnv where
  importOk : Bool
  ctorOk : Nat → Bool

/-- State threaded through calls of the cached embedding getter: the
argument-keyed cache of returned values (a cached value may be none),
the next fresh allocation number, and how many times the NomicEmbeddings
constructor has been invoked. -/
structure EmbState where
  cache : List (EmbKey × Option Resource)
  allocCtr : Nat
  ctorCalls : Nat
deriving DecidableEq

/-- Body of get_embedding_function (chroma_utils.py lines 48-82), before
the cache decorator: returns none when the import failed, none when the
api key is empty, invokes the NomicEmbeddings constructor otherwise and
returns none when that constructor throws (the except branches). -/
def embBody (env : EmbEnv) (k : EmbKey) (s : EmbState) : Option Resource × EmbState :=
  if !env.importOk then (none, s)
  else if k.api_key = "" then (none, s)
  else if env.ctorOk s.ctorCalls then
    (some s.allocCtr,
      { s with allocCtr := s.allocCtr + 1, ctorCalls := s.ctorCalls + 1 })
  else
    (none, { s with ctorCalls := s.ctorCalls + 1 })

/-- get_embedding_function as decorated with st.cache_resource: a cache
hit returns the stored value without running the body; a miss runs the
body and stores whatever it returned, none included. -/
def get_embedding_function (env : EmbEnv) (k : EmbKey) (s : EmbState) :
    Option Resource × EmbState :=
  match assocLookup s.cache k with
  | some v => (v, s)
  | none =>
      let r := embBody env k s
      (r.1, { r.2 with cache := (k, r.1) :: r.2.cache })

/-! ### Relational log store (db_utils.py)

The sqlite database is modelled by explicit row lists. AUTOINCREMENT ids
are modelled by a nextId counter; created_at timestamps are strictly
increasing along inserts, so the ORDER BY created_at of the queries
returns rows in list (insertion) order. Each operation takes fault flags
for the external sqlite layer: connFault models a failure inside
sqlite3.connect, which get_db_connection turns into a raised builtin
ConnectionError (NOT a sqlite3.Error, hence not caught by the except
sqlite3.Error handlers of the callers); sqlFault models a sqlite3.Error
raised while executing the SQL statement. -/

/-- One row of the document_store table. -/
structure DocRow where
  id : Nat
  filename : String
deriving DecidableEq

/-- The document_store table, rows newest first (the order produced by
the ORDER BY upload_timestamp DESC of get_all_documents), plus the next
AUTOINCREMENT id. -/
structure DocDB where
  rows : List DocRow
  nextId : Nat
deriving DecidableEq

/-- Errors that insert_document_record can raise: sqlite
IntegrityError is re-raised as ValueError (the DuplicateNameError of the
design), any other sqlite3.Error as RuntimeError (StorageError), and a
connection failure propagates as the builtin ConnectionError raised by
get_db_connection, uncaught by either except clause. -/
inductive InsError
  | duplicateName
  | storageError
  | connectionError
deriving DecidableEq

/-- insert_document_record (db_utils.py lines 126-145). On success the
new row is prepended (it is the newest) and the id counter advances; on
any error the table is unchanged. -/
def insert_document_record (connFault sqlFault : Bool) (db : DocDB) (filename : String) :
    Except InsError Nat × DocDB :=
  if connFault then (.error .connectionError, db)
  else if sqlFault then (.error .storageError, db)
  else if db.rows.any (fun r => r.filename == filename) then (.error .duplicateName, db)
  else (.ok db.nextId, ⟨⟨db.nextId, filename⟩ :: db.rows, db.nextId + 1⟩)

/-- delete_document_record (db_utils.py lines 148-167): deletes the row
with the given id if present; returns true whether or not a row existed,
false only when the sqlite layer faults (the except sqlite3.Error
branch). A connection failure would propagate as ConnectionError; no
claim depends on that path, so it is not modelled here. -/
def delete_document_record (sqlFault : Bool) (db : DocDB) (file_id : Nat) :
    Bool × DocDB :=
  if sqlFault then (false, db)
  else (true, ⟨db.rows.filter (fun r => r.id != file_id), db.nextId⟩)

/-- get_all_documents (db_utils.py lines 170-181): the rows newest
first, or the empty list when the sqlite layer faults. -/
def get_all_documents (sqlFault : Bool) (db : DocDB) : List DocRow :=
  if sqlFault then [] else db.rows

/-- One row of the application_logs table. -/
structure LogRow where
  session_id : String
  user_query : String
  gpt_response : String
  model : String
deriving DecidableEq

/-- The application_logs table in insertion (chronological) order. -/
abbrev LogDB := List LogRow

/-- Error raised by get_db_connection on a connection failure. -/
inductive DBError
  | connectionError
deriving DecidableEq

/-- insert_application_logs (db_utils.py lines 91-98): appends one chat
turn. A sqlite3.Error during the insert is caught, logged and swallowed
(the table is left unchanged and the call returns normally); a failure
to open the connection raises ConnectionError inside get_db_connection,
which the except sqlite3.Error clause does not catch, so it propagates
to the caller. -/
def insert_application_logs (connFault sqlFault : Bool) (db : LogDB)
    (session_id user_query gpt_response model : String) : Except DBError LogDB :=
  if connFault then .error .connectionError
  else if sqlFault then .ok db
  else .ok (db ++ [⟨session_id, user_query, gpt_response, model⟩])

/-- A role/content message as produced by get_chat_history. -/
structure ChatMessage where
  role : String
  content : String
deriving DecidableEq

/-- The messages one log row contributes: a user entry then an assistant
entry, each skipped when its field is empty (Python truthiness of the
if user_query / if gpt_response tests). -/
def rowMessages (r : LogRow) : List ChatMessage :=
  (if r.user_query = "" then [] else [⟨"user", r.user_query⟩]) ++
  (if r.gpt_response = "" then [] else [⟨"assistant", r.gpt_response⟩])

/-- get_chat_history (db_utils.py lines 101-123): selects the rows of
the session in created_at (insertion) order and flattens each into a
user entry then an assistant entry, skipping empty fields. A
sqlite3.Error is caught and the messages built so far (none) are
returned; a connection failure propagates as ConnectionError. -/
def get_chat_history (connFault sqlFault : Bool) (db : LogDB) (session_id : String) :
    Except DBError (List ChatMessage) :=
  if connFault then .error .connectionError
  else if sqlFault then .ok []
  else .ok ((db.filter (fun r => r.session_id == session_id)).flatMap rowMessages)

/-- Appends a list of (query, response) turns for one session through
insert_application_logs with a healthy store. -/
def appendTurns (db : LogDB) (session_id model : String)
    (turns : List (String × String)) : LogDB :=
  turns.foldl (fun d p =>
    match insert_application_logs false false d session_id p.1 p.2 model with
    | .ok d1 => d1
    | .error _ => d) db

/-! ### Vector store and ingestion pipeline (chroma_utils.py) -/

/-- A chunk stored in Chroma: its text and the stringified document id
written into its metadata. -/
structure Chunk where
  text : String
  file_id : String
deriving DecidableEq

/-- The Chroma collection content. -/
structure VectorStore where
  chunks : List Chunk
deriving DecidableEq

/-- External behaviour of the Chroma-side collaborators during one
indexing or deletion call. -/
structure ChromaEnv where
  embAvailable : Bool
  chromaAvailable : Bool
  loaderRaises : Bool
  loadedChunks : List String
  upsertOk : Bool
  collectionOk : Bool
  deleteRaises : Bool

/-- Whether get_vector_store (chroma_utils.py lines 88-114) yields a
handle: it returns None when the embedding function is None and when the
Chroma constructor throws, so a handle exists only when both the
embedding client and the Chroma store are available. -/
def get_vector_store_available (env : ChromaEnv) : Bool :=
  env.embAvailable && env.chromaAvailable

/-- index_document_to_chroma (chroma_utils.py lines 170-221). Returns
false with the store untouched when the vector-store handle is
unavailable, when load_and_split_document raises (unsupported extension,
caught by the except clause), when it yields zero chunks, and when the
batched add_documents call throws; returns true after appending every
chunk tagged with the stringified file id otherwise. -/
def index_document_to_chroma (env : ChromaEnv) (file_id : Nat) (vs : VectorStore) :
    Bool × VectorStore :=
  if !(get_vector_store_available env) then (false, vs)
  else if env.loaderRaises then (false, vs)
  else if env.loadedChunks = [] then (false, vs)
  else if env.upsertOk then
    (true, ⟨vs.chunks ++ env.loadedChunks.map (fun t => ⟨t, toString file_id⟩)⟩)
  else (false, vs)

/-- delete_doc_from_chroma (chroma_utils.py lines 224-252): false when
the handle is unavailable, when the collection attribute is missing, or
when the filtered delete throws; otherwise removes every chunk whose
file_id metadata matches the stringified id and returns true. -/
def delete_doc_from_chroma (env : ChromaEnv) (file_id : Nat) (vs : VectorStore) :
    Bool × VectorStore :=
  if !(get_vector_store_available env) then (false, vs)
  else if !env.collectionOk then (false, vs)
  else if env.deleteRaises then (false, vs)
  else (true, ⟨vs.chunks.filter (fun c => c.file_id != toString file_id)⟩)

/-! ### Document lifecycle coordinator (sidebar.py) -/

/-- Result of one run of the upload branch of display_sidebar: the two
stores afterwards, the id handed out by registration (none when
registration raised), whether indexing reported success, how many times
delete_document_record was invoked as rollback, and whether the
temporary staged file was removed. -/
structure UploadOutcome where
  db : DocDB
  vs : VectorStore
  fileId : Option Nat
  indexingSuccess : Bool
  rollbackCalls : Nat
  tempRemoved : Bool
deriving DecidableEq

/-- The upload branch of display_sidebar (sidebar.py lines 72-124), run
after the temporary file has been staged. Registration errors
(ValueError, RuntimeError) are caught by the except clauses; the finally
clause removes the temporary file on every path before the result
handling; the result handling rolls back the registry row exactly when a
truthy file id was obtained and indexing reported failure (the elif
file_id and not indexing_success branch). -/
def display_sidebar_upload (insConnFault insSqlFault rbSqlFault : Bool)
    (env : ChromaEnv) (db : DocDB) (vs : VectorStore) (filename : String) :
    UploadOutcome :=
  match insert_document_record insConnFault insSqlFault db filename with
  | (.error _, db0) => ⟨db0, vs, none, false, 0, true⟩
  | (.ok fid, db1) =>
      if fid = 0 then ⟨db1, vs, some fid, false, 0, true⟩
      else
        let r := index_document_to_chroma env fid vs
        if r.1 then ⟨db1, r.2, some fid, true, 0, true⟩
        else
          let d := delete_document_record rbSqlFault db1 fid
          ⟨d.2, r.2, some fid, false, 1, true⟩

/-- Result of one run of the deletion branch of display_sidebar. -/
structure DeleteOutcome where
  db : DocDB
  vs : VectorStore
  chromaDeleted : Bool
  dbDeleteAttempted : Bool
  dbDeleted : Bool
deriving DecidableEq

/-- The deletion branch of display_sidebar (sidebar.py lines 150-173):
delete_doc_from_chroma first; delete_document_record is called only
inside the if chroma_deleted branch. -/
def display_sidebar_delete (env : ChromaEnv) (dbSqlFault : Bool) (fid : Nat)
    (db : DocDB) (vs : VectorStore) : DeleteOutcome :=
  let c := delete_doc_from_chroma env fid vs
  if c.1 then
    let d := delete_document_record dbSqlFault db fid
    ⟨d.2, c.2, true, true, d.1⟩
  else ⟨db, c.2, false, false, false⟩

/-! ### One-time database setup guard (db_utils.py lines 16-70, 187-188) -/

/-- External behaviour during database setup: whether os.makedirs, the
connection, and the CREATE TABLE statements succeed. -/
structure InitEnv where
  mkdirOk : Bool
  connOk : Bool
  ddlOk : Bool

/-- Module state of db_utils: the _db_initialized flag, whether the two
tables exist, and how many times the CREATE TABLE block has run. -/
structure InitState where
  dbGuard : Bool
  schemaReady : Bool
  ddlRuns : Nat
deriving DecidableEq

/-- The RuntimeError that every except clause of the setup re-raises. -/
inductive InitError
  | runtimeError
deriving DecidableEq

/-- The database setup function (db_utils.py lines 16-70): returns at
once when the guard is set; otherwise creates the directory, connects,
runs the DDL, and sets the guard ONLY after the tables were created
(line 53, inside the try). Each failure is re-raised as RuntimeError
with the guard left unset. -/
def init_database (env : InitEnv) (s : InitState) :
    Except InitError Unit × InitState :=
  if s.dbGuard then (.ok (), s)
  else if !env.mkdirOk then (.error .runtimeError, s)
  else if !env.connOk then (.error .runtimeError, s)
  else
    let s1 : InitState := { s with ddlRuns := s.ddlRuns + 1 }
    if !env.ddlOk then (.error .runtimeError, s1)
    else (.ok (), { s1 with dbGuard := true, schemaReady := true })

/-- ensure_db_init (db_utils.py lines 187-188) just forwards. -/
def ensure_db_init (env : InitEnv) (s : InitState) :
    Except InitError Unit × InitState :=
  init_database env s

/-! ### Theorems -/

/-- Claim C9: the temporary staged file is removed on every exit path of
the upload flow - registration failure, indexing success, indexing
failure, and the caught-exception paths all reach the finally clause
that deletes it. -/
theorem C9_temp_file_always_removed (insConnFault insSqlFault rbSqlFault : Bool)
    (env : ChromaEnv) (db : DocDB) (vs : VectorStore) (filename : String) :
    (display_sidebar_upload insConnFault insSqlFault rbSqlFault env db vs
      filename).tempRemoved = true := by
  unfold display_sidebar_upload
  rcases h : insert_document_record insConnFault insSqlFault db filename with ⟨r, db1⟩
  rcases r with e | fid
  · rfl
  · dsimp only
    split
    · rfl
    · split <;> rfl

/-- Claim C3: in the deletion flow the registry delete is attempted only
when the vector-store delete reported success; when it fails, the
registry record is never removed (the registry is unchanged). -/
theorem C3_registry_delete_gated (env : ChromaEnv) (dbSqlFault : Bool)
    (fid : Nat) (db : DocDB) (vs : VectorStore)
    (h : (delete_doc_from_chroma env fid vs).1 = false) :
    (display_sidebar_delete env dbSqlFault fid db vs).dbDeleteAttempted = false ∧
    (display_sidebar_delete env dbSqlFault fid db vs).db = db := by
  unfold display_sidebar_delete
  simp [h]

theorem C3_registry_delete_gated_witness :
    (display_sidebar_delete ⟨false, true, false, [], true, true, false⟩ false 1
      ⟨[⟨1, "a.pdf"⟩], 2⟩ ⟨[]⟩).dbDeleteAttempted = false ∧
    (display_sidebar_delete ⟨false, true, false, [], true, true, false⟩ false 1
      ⟨[⟨1, "a.pdf"⟩], 2⟩ ⟨[]⟩).db = ⟨[⟨1, "a.pdf"⟩], 2⟩ :=
  C3_registry_delete_gated ⟨false, true, false, [], true, true, false⟩ false 1
    ⟨[⟨1, "a.pdf"⟩], 2⟩ ⟨[]⟩ rfl

/-- Claim C4: registering a filename already present fails with the
duplicate-name error, creates no second row and leaves the length of the
document list unchanged; any other persistence fault of the insert
statement fails with the storage error. -/
theorem C4_register_duplicate (db : DocDB) (filename : String)
    (hdup : db.rows.any (fun r => r.filename == filename) = true) :
    insert_document_record false false db filename = (.error .duplicateName, db) ∧
    (get_all_documents false (insert_document_record false false db filename).2).length
      = (get_all_documents false db).length ∧
    insert_document_record false true db filename = (.error .storageError, db) := by
  unfold insert_document_record get_all_documents
  simp [hdup]

theorem C4_register_duplicate_witness :
    insert_document_record false false ⟨[⟨1, "a.pdf"⟩], 2⟩ "a.pdf"
      = (.error .duplicateName, ⟨[⟨1, "a.pdf"⟩], 2⟩) :=
  (C4_register_duplicate ⟨[⟨1, "a.pdf"⟩], 2⟩ "a.pdf" rfl).1

/-- Claim C6: indexing returns false with the vector store untouched
when the cached embedding client or the vector-store handle is
unavailable, and likewise when load_and_split yields zero chunks (a
failure, not a zero-chunk success). -/
theorem C6_index_failure_paths (env : ChromaEnv) (file_id : Nat) (vs : VectorStore) :
    (get_vector_store_available env = false →
      index_document_to_chroma env file_id vs = (false, vs)) ∧
    (env.loadedChunks = [] →
      (index_document_to_chroma env file_id vs).1 = false ∧
      (index_document_to_chroma env file_id vs).2 = vs) := by
  constructor
  · intro h
    unfold index_document_to_chroma
    simp [h]
  · intro h
    unfold index_document_to_chroma
    rcases hav : get_vector_store_available env with _ | _ <;>
      rcases hl : env.loaderRaises with _ | _ <;> simp [hav, hl, h]

theorem C6_index_failure_paths_witness :
    index_document_to_chroma ⟨false, true, false, ["c"], true, true, false⟩ 1 ⟨[]⟩
      = (false, ⟨[]⟩) ∧
    (index_document_to_chroma ⟨true, true, false, [], true, true, false⟩ 1 ⟨[]⟩).1
      = false :=
  ⟨(C6_index_failure_paths ⟨false, true, false, ["c"], true, true, false⟩ 1 ⟨[]⟩).1 rfl,
   ((C6_index_failure_paths ⟨true, true, false, [], true, true, false⟩ 1 ⟨[]⟩).2 rfl).1⟩

/-- Claim C7 fails on the code: when opening the sqlite connection
fails, get_db_connection raises the builtin ConnectionError, which the
except sqlite3.Error clause of insert_application_logs does not catch,
so the storage error propagates to the caller instead of being
swallowed. -/
theorem C7_counterexample :
    insert_application_logs true false [] "s1" "hello" "world" "llama-3.1-8b-instant"
      = .error .connectionError := rfl

/-- Claim C7 as amended: a sqlite error raised while executing the
insert is logged and swallowed and the call returns normally; a failure
to establish the database connection, however, propagates to the caller
as the ConnectionError raised by get_db_connection. -/
theorem C7_amended_swallow_sql_only (sqlFault : Bool) (db : LogDB)
    (sid q a m : String) :
    (∃ db1, insert_application_logs false sqlFault db sid q a m = .ok db1) ∧
    insert_application_logs true sqlFault db sid q a m = .error .connectionError := by
  constructor
  · cases sqlFault
    · exact ⟨_, rfl⟩
    · exact ⟨_, rfl⟩
  · rfl

/-- Claim C10: the one-time guard is set only after schema creation
succeeds. Any failed setup run leaves the guard unset; a successful run
sets it, making every later call a no-op that changes nothing; after a
DDL failure the guard stays unset and a healthy retry re-runs the DDL
and succeeds. -/
theorem C10_guard_set_only_on_success (env envR : InitEnv) (s : InitState)
    (h : s.dbGuard = false) :
    ((init_database env s).1.isOk = false →
      (init_database env s).2.dbGuard = false) ∧
    (env.mkdirOk = true → env.connOk = true → env.ddlOk = true →
      (init_database env s).1 = .ok () ∧
      (init_database env s).2.dbGuard = true ∧
      (init_database env s).2.schemaReady = true ∧
      init_database envR (init_database env s).2 = (.ok (), (init_database env s).2)) ∧
    (env.mkdirOk = true → env.connOk = true → env.ddlOk = false →
      (init_database env s).1 = .error .runtimeError ∧
      (init_database env s).2.dbGuard = false ∧
      (envR.mkdirOk = true → envR.connOk = true → envR.ddlOk = true →
        (init_database envR (init_database env s).2).1 = .ok () ∧
        (init_database envR (init_database env s).2).2.ddlRuns = s.ddlRuns + 2 ∧
        (init_database envR (init_database env s).2).2.dbGuard = true)) := by
  refine ⟨?_, ?_, ?_⟩
  · intro hfail
    unfold init_database at hfail ⊢
    simp only [h] at hfail ⊢
    rcases hm : env.mkdirOk with _ | _ <;> rcases hc : env.connOk with _ | _ <;>
      rcases hd : env.ddlOk with _ | _ <;> simp_all [Except.isOk, Except.toBool]
  · intro hm hc hd
    unfold init_database
    simp [h, hm, hc, hd]
  · intro hm hc hd
    unfold init_database
    simp only [h, hm, hc, hd]
    refine ⟨rfl, rfl, ?_⟩
    intro hm2 hc2 hd2
    simp [hm2, hc2, hd2]

theorem C10_guard_set_only_on_success_witness :
    (init_database ⟨true, true, true⟩ ⟨false, false, 0⟩).1 = .ok () ∧
    (init_database ⟨true, true, true⟩ ⟨false, false, 0⟩).2.dbGuard = true ∧
    (init_database ⟨true, true, false⟩ ⟨false, false, 0⟩).2.dbGuard = false :=
  ⟨((C10_guard_set_only_on_success ⟨true, true, true⟩ ⟨true, true, true⟩
      ⟨false, false, 0⟩ rfl).2.1 rfl rfl rfl).1,
   ((C10_guard_set_only_on_success ⟨true, true, true⟩ ⟨true, true, true⟩
      ⟨false, false, 0⟩ rfl).2.1 rfl rfl rfl).2.1,
   ((C10_guard_set_only_on_success ⟨true, true, false⟩ ⟨true, true, true⟩
      ⟨false, false, 0⟩ rfl).2.2 rfl rfl rfl).2.1⟩

/-- Claim C1 fails on the code: when resource construction throws, the
decorated body catches the exception and returns None, and
st.cache_resource caches that returned None like any other value. In
the run below the constructor always throws; the first call fails and
invokes the constructor once, and the second call with the same key
returns the cached None with the constructor still invoked only once -
the failure IS cached and construction is NOT re-attempted. -/
theorem C1_counterexample :
    (get_embedding_function ⟨true, fun _ => false⟩
      ⟨"k1", "nomic-embed-text-v1.5", some 256⟩ ⟨[], 0, 0⟩).1 = none ∧
    (get_embedding_function ⟨true, fun _ => false⟩
      ⟨"k1", "nomic-embed-text-v1.5", some 256⟩ ⟨[], 0, 0⟩).2.ctorCalls = 1 ∧
    (get_embedding_function ⟨true, fun _ => false⟩
      ⟨"k1", "nomic-embed-text-v1.5", some 256⟩
      (get_embedding_function ⟨true, fun _ => false⟩
        ⟨"k1", "nomic-embed-text-v1.5", some 256⟩ ⟨[], 0, 0⟩).2).1 = none ∧
    (get_embedding_function ⟨true, fun _ => false⟩
      ⟨"k1", "nomic-embed-text-v1.5", some 256⟩
      (get_embedding_function ⟨true, fun _ => false⟩
        ⟨"k1", "nomic-embed-text-v1.5", some 256⟩ ⟨[], 0, 0⟩).2).2.ctorCalls = 1 :=
  ⟨rfl, rfl, rfl, rfl⟩

/-- Claim C1 as amended: when the factory fails for an uncached key, the
None failure result is cached under that key, so a subsequent call with
the same key returns the cached None without re-invoking the factory
(the state, the constructor-invocation count included, is unchanged). -/
theorem C1_amended_failure_cached (env : EmbEnv) (k : EmbKey) (s : EmbState)
    (hmiss : assocLookup s.cache k = none)
    (hfail : (embBody env k s).1 = none) :
    (get_embedding_function env k s).1 = none ∧
    (get_embedding_function env k (get_embedding_function env k s).2).1 = none ∧
    (get_embedding_function env k (get_embedding_function env k s).2).2
      = (get_embedding_function env k s).2 := by
  have h1 : get_embedding_function env k s
      = (none, { (embBody env k s).2 with
          cache := (k, none) :: (embBody env k s).2.cache }) := by
    unfold get_embedding_function
    rw [hmiss]
    simp [hfail]
  rw [h1]
  unfold get_embedding_function
  simp [assocLookup]

theorem C1_amended_failure_cached_witness :
    (get_embedding_function ⟨true, fun _ => false⟩ ⟨"k1", "m", none⟩ ⟨[], 0, 0⟩).1
      = none ∧
    (get_embedding_function ⟨true, fun _ => false⟩ ⟨"k1", "m", none⟩
      (get_embedding_function ⟨true, fun _ => false⟩ ⟨"k1", "m", none⟩
        ⟨[], 0, 0⟩).2).2
      = (get_embedding_function ⟨true, fun _ => false⟩ ⟨"k1", "m", none⟩
          ⟨[], 0, 0⟩).2 :=
  ⟨(C1_amended_failure_cached ⟨true, fun _ => false⟩ ⟨"k1", "m", none⟩ ⟨[], 0, 0⟩
      rfl rfl).1,
   (C1_amended_failure_cached ⟨true, fun _ => false⟩ ⟨"k1", "m", none⟩ ⟨[], 0, 0⟩
      rfl rfl).2.2⟩

/-- Helper: a successful association lookup comes from a list entry. -/
theorem assocLookup_mem {κ : Type} [DecidableEq κ] {β : Type}
    (l : List (κ × β)) (k : κ) (v : β)
    (h : assocLookup l k = some v) : (k, v) ∈ l := by
  induction l with
  | nil => simp [assocLookup] at h
  | cons p ps ih =>
    obtain ⟨a, b⟩ := p
    unfold assocLookup at h
    dsimp at h
    by_cases hp : a = k
    · subst hp
      rw [if_pos rfl] at h
      injection h with h
      subst h
      exact List.mem_cons_self _ _
    · rw [if_neg hp] at h
      exact List.mem_cons_of_mem _ (ih h)

/-- Claim C8: for a valid key (import succeeded, key nonempty, the
constructor succeeds) an uncached call allocates a fresh instance, a
second call with the identical key returns that same instance without
re-invoking the factory (the whole state is unchanged), and a call with
a different valid key never returns the instance cached for the first
key. The hypothesis hinv says every instance cached so far was allocated
earlier than the current allocation counter. -/
theorem C8_cache_identity (env : EmbEnv) (k kp : EmbKey) (s : EmbState)
    (himp : env.importOk = true)
    (hctor : ∀ n, env.ctorOk n = true)
    (hk : ¬ k.api_key = "")
    (hkp : ¬ kp.api_key = "")
    (hne : ¬ kp = k)
    (hmiss : assocLookup s.cache k = none)
    (hinv : ∀ p ∈ s.cache, ∀ r : Resource, p.2 = some r → r < s.allocCtr) :
    (get_embedding_function env k s).1 = some s.allocCtr ∧
    (get_embedding_function env k (get_embedding_function env k s).2).1
      = some s.allocCtr ∧
    (get_embedding_function env k (get_embedding_function env k s).2).2
      = (get_embedding_function env k s).2 ∧
    (get_embedding_function env kp
      (get_embedding_function env k (get_embedding_function env k s).2).2).1
      ≠ some s.allocCtr := by
  have hbody : embBody env k s = (some s.allocCtr,
      { s with allocCtr := s.allocCtr + 1, ctorCalls := s.ctorCalls + 1 }) := by
    unfold embBody
    simp [himp, hk, hctor]
  have h1 : get_embedding_function env k s = (some s.allocCtr,
      ⟨(k, some s.allocCtr) :: s.cache, s.allocCtr + 1, s.ctorCalls + 1⟩) := by
    unfold get_embedding_function
    rw [hmiss]
    simp [hbody]
  have h2 : get_embedding_function env k
      ⟨(k, some s.allocCtr) :: s.cache, s.allocCtr + 1, s.ctorCalls + 1⟩
      = (some s.allocCtr,
        ⟨(k, some s.allocCtr) :: s.cache, s.allocCtr + 1, s.ctorCalls + 1⟩) := by
    unfold get_embedding_function
    simp [assocLookup]
  have hkk : ¬ (k = kp) := fun h => hne h.symm
  refine ⟨by rw [h1], by rw [h1]; dsimp only; rw [h2], by rw [h1]; dsimp only; rw [h2], ?_⟩
  rw [h1]
  dsimp only
  rw [h2]
  dsimp only
  cases hl : assocLookup s.cache kp with
  | some v =>
    have h3 : get_embedding_function env kp
        ⟨(k, some s.allocCtr) :: s.cache, s.allocCtr + 1, s.ctorCalls + 1⟩
        = (v, ⟨(k, some s.allocCtr) :: s.cache, s.allocCtr + 1, s.ctorCalls + 1⟩) := by
      unfold get_embedding_function
      simp [assocLookup, hkk, hl]
    rw [h3]
    dsimp only
    intro hv
    subst hv
    exact absurd (hinv _ (assocLookup_mem _ _ _ hl) s.allocCtr rfl)
      (lt_irrefl s.allocCtr)
  | none =>
    have h3 : (get_embedding_function env kp
        ⟨(k, some s.allocCtr) :: s.cache, s.allocCtr + 1, s.ctorCalls + 1⟩).1
        = some (s.allocCtr + 1) := by
      unfold get_embedding_function
      simp only [assocLookup, if_neg hkk, hl]
      unfold embBody
      simp [himp, hkp, hctor]
    rw [h3]
    simp

theorem C8_cache_identity_witness :
    (get_embedding_function ⟨true, fun _ => true⟩ ⟨"ka", "m", none⟩ ⟨[], 0, 0⟩).1
      = some 0 ∧
    (get_embedding_function ⟨true, fun _ => true⟩ ⟨"ka", "m", none⟩
      (get_embedding_function ⟨true, fun _ => true⟩ ⟨"ka", "m", none⟩
        ⟨[], 0, 0⟩).2).1 = some 0 ∧
    (get_embedding_function ⟨true, fun _ => true⟩ ⟨"ka", "m", none⟩
      (get_embedding_function ⟨true, fun _ => true⟩ ⟨"ka", "m", none⟩
        ⟨[], 0, 0⟩).2).2
      = (get_embedding_function ⟨true, fun _ => true⟩ ⟨"ka", "m", none⟩
          ⟨[], 0, 0⟩).2 ∧
    (get_embedding_function ⟨true, fun _ => true⟩ ⟨"kb", "m", none⟩
      (get_embedding_function ⟨true, fun _ => true⟩ ⟨"ka", "m", none⟩
        (get_embedding_function ⟨true, fun _ => true⟩ ⟨"ka", "m", none⟩
          ⟨[], 0, 0⟩).2).2).1 ≠ some 0 :=
  C8_cache_identity ⟨true, fun _ => true⟩ ⟨"ka", "m", none⟩ ⟨"kb", "m", none⟩
    ⟨[], 0, 0⟩ rfl (fun _ => rfl) (by decide) (by decide) (by decide) rfl
    (by intro p hp; exact absurd hp (List.not_mem_nil p))

/-- Claim C2: when registration handed out an id (a fresh filename on a
healthy store, with the nonzero id sqlite hands out) and indexing
reported failure, the upload coordinator invokes the registry rollback
exactly once, and the refreshed document list no longer contains the
failed filename. -/
theorem C2_rollback_unregisters (env : ChromaEnv) (db : DocDB) (vs : VectorStore)
    (filename : String)
    (hfresh : db.rows.any (fun r => r.filename == filename) = false)
    (hid : ¬ db.nextId = 0)
    (hidx : (index_document_to_chroma env db.nextId vs).1 = false) :
    (display_sidebar_upload false false false env db vs filename).rollbackCalls = 1 ∧
    ∀ r ∈ get_all_documents false
        (display_sidebar_upload false false false env db vs filename).db,
      ¬ r.filename = filename := by
  have hins : insert_document_record false false db filename
      = (.ok db.nextId, ⟨⟨db.nextId, filename⟩ :: db.rows, db.nextId + 1⟩) := by
    unfold insert_document_record
    simp [hfresh]
  have hup : display_sidebar_upload false false false env db vs filename
      = ⟨⟨(⟨db.nextId, filename⟩ :: db.rows).filter (fun r => r.id != db.nextId),
            db.nextId + 1⟩,
         (index_document_to_chroma env db.nextId vs).2,
         some db.nextId, false, 1, true⟩ := by
    unfold display_sidebar_upload
    rw [hins]
    dsimp only
    rw [if_neg hid]
    simp [hidx, delete_document_record]
  rw [hup]
  refine ⟨rfl, ?_⟩
  intro r hr
  unfold get_all_documents at hr
  dsimp only at hr
  rw [List.filter_cons] at hr
  rw [bne_self_eq_false] at hr
  simp only [Bool.false_eq_true, if_false] at hr
  have hr2 := (List.mem_filter.mp hr).1
  have hall := List.any_eq_false.mp hfresh r hr2
  simpa using hall

theorem C2_rollback_unregisters_witness :
    (display_sidebar_upload false false false
      ⟨false, true, false, [], true, true, false⟩ ⟨[], 1⟩ ⟨[]⟩
      "b.docx").rollbackCalls = 1 :=
  (C2_rollback_unregisters ⟨false, true, false, [], true, true, false⟩ ⟨[], 1⟩ ⟨[]⟩
    "b.docx" rfl (by decide) rfl).1

/-- Helper: appending turns through insert_application_logs on a healthy
store appends the corresponding rows in order. -/
theorem appendTurns_eq (db : LogDB) (sid m : String)
    (turns : List (String × String)) :
    appendTurns db sid m turns
      = db ++ turns.map (fun p => LogRow.mk sid p.1 p.2 m) := by
  induction turns generalizing db with
  | nil => simp [appendTurns]
  | cons p ps ih =>
    show appendTurns (db ++ [⟨sid, p.1, p.2, m⟩]) sid m ps = _
    rw [ih]
    simp

/-- Claim C5: the history of a session with no rows is empty, and after
appending N turns with nonempty fields the fetched history is exactly
the N user entries and N assistant entries in alternating insertion
order - 2N entries in total. -/
theorem C5_history_roundtrip (db : LogDB) (sid m : String)
    (turns : List (String × String))
    (hdb : ∀ r ∈ db, ¬ r.session_id = sid)
    (hne : ∀ p ∈ turns, ¬ p.1 = "" ∧ ¬ p.2 = "") :
    get_chat_history false false db sid = .ok [] ∧
    get_chat_history false false (appendTurns db sid m turns) sid
      = .ok (turns.flatMap (fun p =>
          [ChatMessage.mk "user" p.1, ChatMessage.mk "assistant" p.2])) ∧
    (turns.flatMap (fun p =>
        [ChatMessage.mk "user" p.1, ChatMessage.mk "assistant" p.2])).length
      = 2 * turns.length ∧
    get_chat_history false false (appendTurns db sid m [("q1", "")]) sid
      = .ok [⟨"user", "q1"⟩] := by
  have hfilter : db.filter (fun r => r.session_id == sid) = [] := by
    rw [List.filter_eq_nil_iff]
    intro r hr
    simpa using hdb r hr
  refine ⟨?_, ?_, ?_, ?_⟩
  · unfold get_chat_history
    simp [hfilter]
  · rw [appendTurns_eq]
    unfold get_chat_history
    simp only [Bool.false_eq_true, if_false, List.filter_append, hfilter,
      List.nil_append, List.filter_map]
    have hconst : ((fun r : LogRow => r.session_id == sid) ∘
        (fun p : String × String => LogRow.mk sid p.1 p.2 m))
        = fun _ => true := by
      funext p
      simp
    rw [hconst, List.filter_true, List.flatMap_map]
    congr 1
    apply List.flatMap_congr
    intro p hp
    have hp1 := (hne p hp).1
    have hp2 := (hne p hp).2
    unfold rowMessages
    simp [hp1, hp2]
  · induction turns with
    | nil => rfl
    | cons p ps ih =>
      have hps : ∀ q ∈ ps, ¬ q.1 = "" ∧ ¬ q.2 = "" :=
        fun q hq => hne q (List.mem_cons_of_mem p hq)
      rw [List.flatMap_cons, List.length_append]
      rw [ih hps]
      simp
      ring
  · rw [appendTurns_eq]
    unfold get_chat_history
    simp [List.filter_append, hfilter, rowMessages]

theorem C5_history_roundtrip_witness :
    get_chat_history false false [] "s1" = .ok [] ∧
    get_chat_history false false
      (appendTurns [] "s1" "llama-3.1-8b-instant" [("What is X?", "X is Y.")]) "s1"
      = .ok [⟨"user", "What is X?"⟩, ⟨"assistant", "X is Y."⟩] := by
  have h := C5_history_roundtrip [] "s1" "llama-3.1-8b-instant"
    [("What is X?", "X is Y.")]
    (by intro r hr; exact absurd hr (List.not_mem_nil r))
    (by decide)
  exact ⟨h.1, h.2.1⟩

end RagApp
